import Mathlib

/-!
Verification of the kots snapshot/backup infrastructure core: NFS-minio
conflict-aware provisioning, velero engine detection and image rewriting,
and per-workload snapshot schedule management.

Definitions are shallow embeddings of the Go source (handlers package,
snapshot package, CLI command).  Functions of this repository that are not
part of the provided source (DeployNFSMinio, FormatTTL, ParseTTL) are
modelled from the specification and marked as such in their doc comments.
-/

namespace KotsSnapshot

/- ====================================================================
   NFS-minio self-hosted backend (SelfHostedBackendOrchestrator)
   ==================================================================== -/

/-- NFS share coordinates, from `types.NFSConfig` (fields `Path`, `Server`). -/
structure NFSConfig where
  path : String
  server : String
deriving DecidableEq, Repr

/-- Abstract state of the NFS-minio backend: which share (if any) it has
been provisioned against, and a generation counter standing for the
credential set (bumped whenever credentials are regenerated). -/
structure NFSMinioState where
  deployed : Option NFSConfig
  credsGeneration : Nat
deriving DecidableEq, Repr

/-- Errors from the NFS-minio deploy: the distinguished `ResetNFSError`
conflict type, or any other (internal) error. -/
inductive NFSDeployError where
  | resetNFS (msg : String)
  | other (msg : String)
deriving DecidableEq, Repr

/-- Human-readable description of an NFS config mismatch (server/path). -/
def nfsMismatchMessage (prior desired : NFSConfig) : String :=
  "The backend is already configured with NFS server " ++ prior.server ++
  " and path " ++ prior.path ++ ", which does not match the requested server " ++
  desired.server ++ " and path " ++ desired.path

/-- Modelled from the spec: `DeployNFSMinio` / `Reconcile(desired, forceReset)`
(the function itself is not in the provided source; its callers are).
Per the spec: no prior deployment creates fresh; a prior deployment equal to
`desired` is an idempotent no-op; a different prior with `forceReset = false`
fails with the distinguished `ResetNFSError` carrying a human-readable
description of the server/path mismatch; with `forceReset = true` the backend
is torn down and recreated against `desired`, invalidating previously issued
credentials. -/
def deployNFSMinio (st : NFSMinioState) (desired : NFSConfig) (forceReset : Bool) :
    Except NFSDeployError NFSMinioState :=
  match st.deployed with
  | none => .ok { deployed := some desired, credsGeneration := st.credsGeneration + 1 }
  | some prior =>
    if prior = desired then
      .ok st
    else if forceReset then
      .ok { deployed := some desired, credsGeneration := st.credsGeneration + 1 }
    else
      .error (.resetNFS (nfsMismatchMessage prior desired))

/-- Outcome of the CLI `backup configure-nfs` deploy step. -/
inductive CLIDeployOutcome where
  | success (st : NFSMinioState)
  | aborted
  | failed (msg : String)
deriving DecidableEq, Repr

/-- Embedding of the NFS-minio deploy step of `BackupConfigureNFSCmd`
(cmd/kots/cli): the first invocation runs with `ForceReset` unset (false);
on a `ResetNFSError` the user is prompted (`confirmReset` abstracts the
prompt answer) and, if confirmed, the deploy is re-invoked with
`ForceReset = true`; declining aborts; any other error fails the command. -/
def backupConfigureNFSDeploy (st : NFSMinioState) (opts : NFSConfig)
    (confirmReset : Bool) : CLIDeployOutcome :=
  match deployNFSMinio st opts false with
  | .ok st' => .success st'
  | .error (.resetNFS _) =>
    if confirmReset then
      match deployNFSMinio st opts true with
      | .ok st' => .success st'
      | .error _ => .failed "failed to force deploy nfs minio"
    else .aborted
  | .error (.other _) => .failed "failed to deploy nfs minio"

/-- Embedding of the error discrimination in the `ConfigureNFSSnapshots`
handler (handlers package): a `ResetNFSError` cause is surfaced as HTTP 409
Conflict with the error text; any other deploy error is HTTP 500; success
returns `none` (the handler proceeds). -/
def configureNFSSnapshotsErrorStatus (st : NFSMinioState) (opts : NFSConfig)
    (forceReset : Bool) : Option (Nat × String) :=
  match deployNFSMinio st opts forceReset with
  | .ok _ => none
  | .error (.resetNFS msg) => some (409, msg)
  | .error (.other _) => some (500, "failed to configure nfs minio")

/- ====================================================================
   ScheduleManager: cron parsing, TTL, snapshot config handlers
   ==================================================================== -/

/-- Parse a nonempty all-digit character list as a natural number (Go
strconv unsigned integer parse). -/
def parseUintChars (cs : List Char) : Option Nat :=
  if cs ≠ [] ∧ cs.all Char.isDigit then
    some (cs.foldl (fun n c => n * 10 + (c.toNat - 48)) 0)
  else none

/-- Parse a nonempty all-digit string as a natural number (Go strconv
unsigned integer parse). -/
def parseUint (s : String) : Option Nat :=
  parseUintChars s.data

/-- Split a character list on a separator character (Go strings.Split). -/
def splitOnChar (sep : Char) : List Char → List (List Char)
  | [] => [[]]
  | c :: cs =>
    if c = sep then [] :: splitOnChar sep cs
    else
      match splitOnChar sep cs with
      | [] => [[c]]
      | g :: gs => (c :: g) :: gs

/-- Split a character list into maximal nonempty runs of non-whitespace
characters (Go strings.Fields); `acc` is the current word, reversed. -/
def fieldsAux : List Char → List Char → List (List Char)
  | acc, [] => if acc = [] then [] else [acc.reverse]
  | acc, c :: cs =>
    if c.isWhitespace then
      if acc = [] then fieldsAux [] cs else acc.reverse :: fieldsAux [] cs
    else fieldsAux (c :: acc) cs

/-- Remove an expected leading character sequence, returning the remainder
when it is present. -/
def dropLeading : List Char → List Char → Option (List Char)
  | [], cs => some cs
  | _ :: _, [] => none
  | p :: ps, c :: cs => if c = p then dropLeading ps cs else none

/-- Month names accepted by the cron parser (third-party robfig/cron). -/
def monthNames : List (String × Nat) :=
  [("jan", 1), ("feb", 2), ("mar", 3), ("apr", 4), ("may", 5), ("jun", 6),
   ("jul", 7), ("aug", 8), ("sep", 9), ("oct", 10), ("nov", 11), ("dec", 12)]

/-- Day-of-week names accepted by the cron parser (third-party robfig/cron). -/
def dowNames : List (String × Nat) :=
  [("sun", 0), ("mon", 1), ("tue", 2), ("wed", 3), ("thu", 4), ("fri", 5), ("sat", 6)]

/-- Find a named value by its lowercase key. -/
def lookupName : List (String × Nat) → List Char → Option Nat
  | [], _ => none
  | (n, v) :: rest, key => if n.data = key then some v else lookupName rest key

/-- Cron field name-or-number parse: a known name (case-insensitive) or an
unsigned integer. -/
def parseIntOrName (names : List (String × Nat)) (cs : List Char) : Option Nat :=
  match lookupName names (cs.map Char.toLower) with
  | some v => some v
  | none => parseUintChars cs

/-- The set of values `start, start+step, ...` up to `stop`. -/
def expandRange (start stop step : Nat) : List Nat :=
  (List.range (stop + 1)).filter (fun v => decide (start ≤ v) && decide ((v - start) % step = 0))

/-- One comma-separated chunk of a cron field, per the third-party
standard cron parser used by the source (robfig/cron `getRange`):
`*`/`?` is the full range; `A` or `A-B` with names or numbers; an optional
`/step`; with a step, a single value `A/step` extends to the field maximum;
bounds and `start ≤ end` and `step > 0` are enforced. -/
def getRange (expr : List Char) (lo hi : Nat) (names : List (String × Nat)) :
    Option (List Nat) :=
  let parseBase : List Char → Option (Nat × Nat × Bool) := fun rng =>
    match splitOnChar '-' rng with
    | [] => none
    | a :: rest =>
      if a = ['*'] ∨ a = ['?'] then some (lo, hi, rest.isEmpty)
      else
        match rest with
        | [] => (parseIntOrName names a).map (fun s => (s, s, true))
        | [b] =>
          match parseIntOrName names a, parseIntOrName names b with
          | some s, some e => some (s, e, false)
          | _, _ => none
        | _ => none
  match splitOnChar '/' expr with
  | [rng] =>
    match parseBase rng with
    | some (s, e, _) =>
      if lo ≤ s ∧ e ≤ hi ∧ s ≤ e then some (expandRange s e 1) else none
    | none => none
  | [rng, stepStr] =>
    match parseBase rng, parseUintChars stepStr with
    | some (s, e0, singleDigit), some step =>
      let e := if singleDigit then hi else e0
      if step ≠ 0 ∧ lo ≤ s ∧ e ≤ hi ∧ s ≤ e then some (expandRange s e step) else none
    | _, _ => none
  | _ => none

/-- A whole cron field: comma-separated ranges, all of which must parse. -/
def getField (field : List Char) (lo hi : Nat) (names : List (String × Nat)) :
    Option (List Nat) :=
  (splitOnChar ',' field).foldl
    (fun acc r =>
      match acc, getRange r lo hi names with
      | some l, some l2 => some (l ++ l2)
      | _, _ => none)
    (some [])

/-- A parsed cron schedule: either the five field value sets of a standard
expression, or a fixed interval from an `@every` descriptor. -/
inductive CronSched where
  | fields (minute hour dom month dow : List Nat)
  | every (nanos : Nat)
deriving DecidableEq, Repr

/-- Nanoseconds per Go duration unit. -/
def goDurationUnits : List Char → Option (Nat × List Char)
  | 'n' :: 's' :: r => some (1, r)
  | 'u' :: 's' :: r => some (1000, r)
  | 'm' :: 's' :: r => some (1000000, r)
  | 's' :: r => some (1000000000, r)
  | 'm' :: r => some (60000000000, r)
  | 'h' :: r => some (3600000000000, r)
  | _ => none

/-- Models Go `time.ParseDuration` (ASCII units): one or more terms of
digits, an optional fraction, and a unit; the fractional part is validated
but its value is not accumulated (only validity is used by this
development). -/
def parseGoDurationAux : Nat → List Char → Nat → Option Nat
  | 0, _, _ => none
  | _ + 1, [], _ => none
  | fuel + 1, cs, acc =>
    let intPart := cs.takeWhile Char.isDigit
    let rest := cs.dropWhile Char.isDigit
    if intPart.isEmpty then none
    else
      let rest := match rest with
        | '.' :: r => r.dropWhile Char.isDigit
        | _ => rest
      match goDurationUnits rest with
      | none => none
      | some (mult, rest') =>
        let n := intPart.foldl (fun n c => n * 10 + (c.toNat - 48)) 0
        let acc := acc + n * mult
        if rest'.isEmpty then some acc else parseGoDurationAux fuel rest' acc

/-- Go duration parse (see `parseGoDurationAux`); `"0"` is the one
unit-less form accepted. -/
def parseGoDuration (cs : List Char) : Option Nat :=
  if cs = ['0'] then some 0 else parseGoDurationAux (cs.length + 1) cs 0

/-- Named cron descriptors of the third-party standard cron parser used by
the source (robfig/cron `parseDescriptor`). -/
def parseDescriptor (spec : String) : Option CronSched :=
  if spec = "@yearly" ∨ spec = "@annually" then
    some (.fields [0] [0] [1] [1] (expandRange 0 6 1))
  else if spec = "@monthly" then
    some (.fields [0] [0] [1] (expandRange 1 12 1) (expandRange 0 6 1))
  else if spec = "@weekly" then
    some (.fields [0] [0] (expandRange 1 31 1) (expandRange 1 12 1) [0])
  else if spec = "@daily" ∨ spec = "@midnight" then
    some (.fields [0] [0] (expandRange 1 31 1) (expandRange 1 12 1) (expandRange 0 6 1))
  else if spec = "@hourly" then
    some (.fields [0] (expandRange 0 23 1) (expandRange 1 31 1) (expandRange 1 12 1)
      (expandRange 0 6 1))
  else
    match dropLeading ['@', 'e', 'v', 'e', 'r', 'y', ' '] spec.data with
    | some rest => (parseGoDuration rest).map .every
    | none => none

/-- Models the third-party standard cron parser invoked by the source
(`cron.NewParser(Minute|Hour|Dom|Month|Dow|Descriptor).Parse` and
`cron.ParseStandard`): a named descriptor, or exactly five
whitespace-separated fields (minute 0-59, hour 0-23, day-of-month 1-31,
month 1-12 with names, day-of-week 0-6 with names). `none` is a parse
error. -/
def parseCronStandard (spec : String) : Option CronSched :=
  match spec.data with
  | [] => none
  | '@' :: _ => parseDescriptor spec
  | cs =>
    match fieldsAux [] cs with
    | [m, h, dom, mon, dow] =>
      match getField m 0 59 [], getField h 0 23 [], getField dom 1 31 [],
            getField mon 1 12 monthNames, getField dow 0 6 dowNames with
      | some a, some b, some c, some d, some e => some (.fields a b c d e)
      | _, _, _, _, _ => none
    | _ => none

/-- Modelled from the spec: `snapshot.FormatTTL` (not in the provided
source). Hours per display unit; retention is persisted as a single
normalized duration in hours, e.g. one month is `"720h"`. -/
def ttlUnitHours : String → Option Nat
  | "hour" => some 1
  | "day" => some 24
  | "week" => some 168
  | "month" => some 720
  | "year" => some 8766
  | _ => none

/-- Modelled from the spec: `snapshot.FormatTTL` (not in the provided
source). Formats a `(quantity, unit)` pair into the persisted duration
string; a zero or malformed quantity or unknown unit is invalid
(`("1","month")` gives `"720h"`, `("0","month")` is rejected). -/
def formatTTL (inputValue inputTimeUnit : String) : Option String :=
  match parseUint inputValue, ttlUnitHours inputTimeUnit with
  | some q, some h => if q = 0 then none else some (toString (q * h) ++ "h")
  | _, _ => none

/-- Modelled from the spec: `snapshot.ParseTTL` (not in the provided
source). Parses the persisted duration back into a `(quantity, unit)`
pair, choosing the largest exactly-dividing unit (`"720h"` gives
`(1, "month")`). -/
def parseTTL (s : String) : Option (Nat × String) :=
  if s.data.getLast? = some 'h' then
    match parseUintChars s.data.dropLast with
    | some h =>
      if h = 0 then none
      else if h % 8766 = 0 then some (h / 8766, "year")
      else if h % 720 = 0 then some (h / 720, "month")
      else if h % 168 = 0 then some (h / 168, "week")
      else if h % 24 = 0 then some (h / 24, "day")
      else some (h, "hour")
    | none => none
  else none

/-- A pending scheduled snapshot request (id and queued timestamp). -/
structure PendingSnapshot where
  id : String
  scheduledAt : Nat
deriving DecidableEq, Repr

/-- The persisted per-workload snapshot state an app or cluster record
carries: stored cron expression, stored retention duration, and the pending
scheduled snapshot requests owned by the workload. -/
structure ScheduleState where
  snapshotSchedule : String
  snapshotTTL : String
  pendingSnapshots : List PendingSnapshot
deriving DecidableEq, Repr

/-- Request body of `SaveSnapshotConfig` / `SaveInstanceSnapshotConfig`
(after JSON decode). -/
structure SaveSnapshotConfigRequest where
  inputValue : String
  inputTimeUnit : String
  schedule : String
  autoEnabled : Bool
deriving DecidableEq, Repr

/-- Handler outcome: success, or a 400 validation failure with its
message. -/
inductive SaveResult where
  | ok
  | badRequest (msg : String)
deriving DecidableEq, Repr

/-- Embedding of the `SaveSnapshotConfig` handler (handlers package), after
request decode and app fetch.  `now` is the current time, `freshId` the
random lowercase id, and `next` abstracts the cron library's
`Schedule.Next` (next occurrence strictly after the given time).  Steps,
in source order: format the retention (400 on failure), persist it when it
differs; if auto-scheduling is off, clear the stored schedule and delete
all pending requests; otherwise parse the cron expression (400 on
failure); on a schedule different from the stored one, delete all pending
requests, store the new schedule, and create one pending request queued at
the schedule's next occurrence after `now`. -/
def saveSnapshotConfig (app : ScheduleState) (req : SaveSnapshotConfigRequest)
    (now : Nat) (freshId : String) (next : CronSched → Nat → Nat) :
    SaveResult × ScheduleState :=
  match formatTTL req.inputValue req.inputTimeUnit with
  | none =>
    (.badRequest ("Invalid snapshot retention: " ++ req.inputValue ++ " " ++ req.inputTimeUnit),
     app)
  | some retention =>
    let app := if app.snapshotTTL ≠ retention then { app with snapshotTTL := retention } else app
    if !req.autoEnabled then
      (.ok, { app with snapshotSchedule := "", pendingSnapshots := [] })
    else
      match parseCronStandard req.schedule with
      | none => (.badRequest ("Invalid cron schedule expression: " ++ req.schedule), app)
      | some cronSchedule =>
        if req.schedule ≠ app.snapshotSchedule then
          let app := { app with pendingSnapshots := [] }
          let app := { app with snapshotSchedule := req.schedule }
          let queued := next cronSchedule now
          (.ok, { app with pendingSnapshots := app.pendingSnapshots ++ [⟨freshId, queued⟩] })
        else
          (.ok, app)

/-- Embedding of the `SaveInstanceSnapshotConfig` handler (handlers
package), after request decode and cluster fetch; identical logic to
`saveSnapshotConfig` against the cluster record's snapshot state
(`cron.ParseStandard` is the same standard parser). -/
def saveInstanceSnapshotConfig (c : ScheduleState) (req : SaveSnapshotConfigRequest)
    (now : Nat) (freshId : String) (next : CronSched → Nat → Nat) :
    SaveResult × ScheduleState :=
  match formatTTL req.inputValue req.inputTimeUnit with
  | none =>
    (.badRequest ("Invalid instance snapshot retention: " ++ req.inputValue ++ " " ++ req.inputTimeUnit),
     c)
  | some retention =>
    let c := if c.snapshotTTL ≠ retention then { c with snapshotTTL := retention } else c
    if !req.autoEnabled then
      (.ok, { c with snapshotSchedule := "", pendingSnapshots := [] })
    else
      match parseCronStandard req.schedule with
      | none => (.badRequest ("Invalid cron schedule expression: " ++ req.schedule), c)
      | some cronSchedule =>
        if req.schedule ≠ c.snapshotSchedule then
          let c := { c with pendingSnapshots := [] }
          let c := { c with snapshotSchedule := req.schedule }
          let queued := next cronSchedule now
          (.ok, { c with pendingSnapshots := c.pendingSnapshots ++ [⟨freshId, queued⟩] })
        else
          (.ok, c)

/-- Displayed retention triple of the snapshot config responses. -/
structure SnapshotTTLView where
  inputValue : String
  inputTimeUnit : String
  converted : String
deriving DecidableEq, Repr

/-- Response body of `GetSnapshotConfig` / `GetInstanceSnapshotConfig`. -/
structure SnapshotConfigView where
  autoEnabled : Bool
  schedule : String
  ttl : SnapshotTTLView
deriving DecidableEq, Repr

/-- Embedding of the `GetSnapshotConfig` handler (handlers package): an
empty stored retention displays as one month (`"1"`, `"month"`, `"720h"`),
otherwise the stored duration is parsed back (`none` is the 500 path); an
empty stored cron expression displays as `"0 0 * * MON"`; auto-scheduling
is reported enabled exactly when a schedule is stored. -/
def getSnapshotConfig (app : ScheduleState) : Option SnapshotConfigView :=
  let ttlView : Option SnapshotTTLView :=
    if app.snapshotTTL ≠ "" then
      (parseTTL app.snapshotTTL).map
        (fun qu => ⟨toString qu.1, qu.2, app.snapshotTTL⟩)
    else some ⟨"1", "month", "720h"⟩
  match ttlView with
  | none => none
  | some ttl =>
    let schedule := if app.snapshotSchedule ≠ "" then app.snapshotSchedule else "0 0 * * MON"
    some ⟨app.snapshotSchedule ≠ "", schedule, ttl⟩

/-- Embedding of the `GetInstanceSnapshotConfig` handler (handlers
package); identical logic to `getSnapshotConfig` against the cluster
record's snapshot state. -/
def getInstanceSnapshotConfig (c : ScheduleState) : Option SnapshotConfigView :=
  let ttlView : Option SnapshotTTLView :=
    if c.snapshotTTL ≠ "" then
      (parseTTL c.snapshotTTL).map
        (fun qu => ⟨toString qu.1, qu.2, c.snapshotTTL⟩)
    else some ⟨"1", "month", "720h"⟩
  match ttlView with
  | none => none
  | some ttl =>
    let schedule := if c.snapshotSchedule ≠ "" then c.snapshotSchedule else "0 0 * * MON"
    some ⟨c.snapshotSchedule ≠ "", schedule, ttl⟩

/- ====================================================================
   Image-reference tokenizer (dockerImageNameRegex)
   ==================================================================== -/

/-- Capture groups of one match of the image-reference pattern
of the snapshot package,
regex `(?:([^\/]+)\/)?(?:([^\/]+)\/)?([^@:\/]+)(?:[@:](.+))`:
two optional slash-terminated prefixes, the repository name, and the
mandatory separator (`@` or `:`) followed by the tag/digest capture
(`g4`, the version). -/
structure ImageMatch where
  g1 : Option (List Char)
  g2 : Option (List Char)
  g3 : List Char
  sep : Char
  g4 : List Char
deriving DecidableEq, Repr

/-- The full matched text reassembled from the captures. -/
def fullMatchChars (m : ImageMatch) : List Char :=
  (match m.g1 with | some a => a ++ ['/'] | none => []) ++
  (match m.g2 with | some a => a ++ ['/'] | none => []) ++
  m.g3 ++ [m.sep] ++ m.g4

/-- One optional unit of the pattern:
a nonempty run of non-slash characters followed by a slash.  The greedy
run is forced up to the first slash, so at a given position the unit
matches in at most one way. -/
def matchSlashGroup (s : List Char) : Option (List Char × List Char) :=
  match s.dropWhile (fun c => c != '/') with
  | '/' :: rest =>
    if (s.takeWhile (fun c => c != '/')).isEmpty then none
    else some (s.takeWhile (fun c => c != '/'), rest)
  | _ => none

/-- The mandatory core of the pattern: a nonempty run of characters
outside [at-sign, colon, slash], then an at-sign or colon, then a nonempty
greedy tail in which the dot metacharacter excludes newline (Go regexp
default). -/
def matchImageCore (s : List Char) : Option (List Char × Char × List Char) :=
  match s.dropWhile (fun c => c != '@' && c != ':' && c != '/') with
  | c :: rest =>
    if (c = '@' ∨ c = ':') ∧ s.takeWhile (fun c => c != '@' && c != ':' && c != '/') ≠ [] then
      if (rest.takeWhile (fun d => d != '\n')).isEmpty then none
      else some (s.takeWhile (fun c => c != '@' && c != ':' && c != '/'), c,
                 rest.takeWhile (fun d => d != '\n'))
    else none
  | [] => none

/-- A match of the whole pattern anchored at this position, trying the two
optional prefix groups in the engine's backtracking preference order: both
present, first only, then neither (the "second only" alternative consumes
exactly as "first only" does, so it can never succeed after that one has
failed and contributes no further case). -/
def matchImageAt (s : List Char) : Option ImageMatch :=
  match matchSlashGroup s with
  | some (a1, s1) =>
    match matchSlashGroup s1 with
    | some (a2, s2) =>
      match matchImageCore s2 with
      | some x => some ⟨some a1, some a2, x.1, x.2.1, x.2.2⟩
      | none =>
        match matchImageCore s1 with
        | some x => some ⟨some a1, none, x.1, x.2.1, x.2.2⟩
        | none =>
          match matchImageCore s with
          | some x => some ⟨none, none, x.1, x.2.1, x.2.2⟩
          | none => none
    | none =>
      match matchImageCore s1 with
      | some x => some ⟨some a1, none, x.1, x.2.1, x.2.2⟩
      | none =>
        match matchImageCore s with
        | some x => some ⟨none, none, x.1, x.2.1, x.2.2⟩
        | none => none
  | none =>
    match matchImageCore s with
    | some x => some ⟨none, none, x.1, x.2.1, x.2.2⟩
    | none => none

/-- Leftmost match over all start positions (Go FindStringSubmatch
search). -/
def findImageMatch : List Char → Option ImageMatch
  | [] => none
  | c :: rest =>
    match matchImageAt (c :: rest) with
    | some m => some m
    | none => findImageMatch rest

/-- `dockerImageNameRegex.FindStringSubmatch`: the empty list when the
pattern does not match, otherwise the five-element submatch list
(full match, four capture groups, with the empty string for a
non-participating group). -/
def dockerImageNameSubmatch (s : String) : List String :=
  match findImageMatch s.data with
  | none => []
  | some m =>
    [⟨fullMatchChars m⟩, ⟨m.g1.getD []⟩, ⟨m.g2.getD []⟩, ⟨m.g3⟩, ⟨m.g4⟩]

/- ====================================================================
   EngineDetector: velero namespace and status detection
   ==================================================================== -/

/-- A velero backup storage location resource (name and namespace). -/
structure BackupStorageLocation where
  name : String
  ns : String
deriving DecidableEq, Repr

/-- A container of a pod template (name and image reference). -/
structure Container where
  name : String
  image : String
deriving DecidableEq, Repr

/-- The pod template spec fields of a workload; `serviceAccountName` and
`volumes` stand for the spec fields the image configuration never
touches. -/
structure PodSpec where
  imagePullSecrets : List String
  initContainers : List Container
  containers : List Container
  serviceAccountName : String
  volumes : List String
deriving DecidableEq, Repr

/-- A deployment: metadata, pod template spec, and status replica
counts. -/
structure Deployment where
  name : String
  labels : List (String × String)
  spec : PodSpec
  replicas : Nat
  availableReplicas : Nat
deriving DecidableEq, Repr

/-- A daemonset: metadata, pod template spec, and status availability
counts. -/
structure DaemonSet where
  name : String
  labels : List (String × String)
  spec : PodSpec
  numberAvailable : Nat
  numberUnavailable : Nat
deriving DecidableEq, Repr

/-- Label-selector membership: the resource carries the given label
key/value pair. -/
def hasLabel (labels : List (String × String)) (k v : String) : Bool :=
  labels.any (fun p => p.1 == k && p.2 == v)

/-- The cluster as seen by the detection functions: whether the client
config can be constructed, whether the backup-storage-location list call
errors, the locations themselves, whether workload list calls error, and
the namespaced deployments and daemonsets. -/
structure DetectCluster where
  configAvailable : Bool
  bslListErr : Bool
  bsls : List BackupStorageLocation
  listErr : Bool
  deployments : List (String × Deployment)
  daemonsets : List (String × DaemonSet)

/-- Embedding of `DetectVeleroNamespace` (snapshot package): a cluster
config/client construction failure is an error; an error from listing
backup storage locations yields the empty namespace with no error; the
first location named `"default"` determines the namespace; otherwise the
empty namespace. -/
def detectVeleroNamespace (c : DetectCluster) : Except String String :=
  if !c.configAvailable then .error "failed to get cluster config"
  else if c.bslListErr then .ok ""
  else
    match c.bsls.find? (fun b => b.name == "default") with
    | some b => .ok b.ns
    | none => .ok ""

/-- Embedding of `listPossibleVeleroDeployments` (snapshot package): the
deployments in the namespace matching label `component=velero`, followed
by those matching `app.kubernetes.io/name=velero`. -/
def listPossibleVeleroDeployments (c : DetectCluster) (ns : String) :
    Except String (List Deployment) :=
  if c.listErr then .error "failed to list deployments"
  else
    .ok (((c.deployments.filter
            (fun p => p.1 == ns && hasLabel p.2.labels "component" "velero")).map Prod.snd) ++
         ((c.deployments.filter
            (fun p => p.1 == ns &&
              hasLabel p.2.labels "app.kubernetes.io/name" "velero")).map Prod.snd))

/-- Embedding of `listPossibleResticDaemonsets` (snapshot package), with
the same two label conventions. -/
def listPossibleResticDaemonsets (c : DetectCluster) (ns : String) :
    Except String (List DaemonSet) :=
  if c.listErr then .error "failed to list daemonsets"
  else
    .ok (((c.daemonsets.filter
            (fun p => p.1 == ns && hasLabel p.2.labels "component" "velero")).map Prod.snd) ++
         ((c.daemonsets.filter
            (fun p => p.1 == ns &&
              hasLabel p.2.labels "app.kubernetes.io/name" "velero")).map Prod.snd))

/-- The goto-terminated deployment scan of `DetectVelero`: each visited
deployment contributes its init-container names to the plugin list; the
first deployment whose primary container image matches the tokenizer
yields the version (capture 4) and a status that is Ready exactly when
some replica is available, ending the scan.  Reading the primary container
of a deployment with no containers is the Go index-out-of-range panic,
modelled as an error. -/
def scanVeleroDeployments :
    List Deployment → List String → Except String (List String × Option (String × String))
  | [], plugins => .ok (plugins, none)
  | d :: rest, plugins =>
    let plugins := plugins ++ d.spec.initContainers.map Container.name
    match d.spec.containers with
    | [] => .error "panic: index out of range"
    | c0 :: _ =>
      match findImageMatch c0.image.data with
      | some m =>
        .ok (plugins, some (⟨m.g4⟩, if d.availableReplicas > 0 then "Ready" else "NotReady"))
      | none => scanVeleroDeployments rest plugins

/-- The goto-terminated daemonset scan of `DetectVelero`: the first
daemonset whose primary container image matches the tokenizer yields the
restic version and a status that is Ready exactly when some pod is
available and none is unavailable. -/
def scanResticDaemonsets :
    List DaemonSet → Except String (Option (String × String))
  | [] => .ok none
  | ds :: rest =>
    match ds.spec.containers with
    | [] => .error "panic: index out of range"
    | c0 :: _ =>
      match findImageMatch c0.image.data with
      | some m =>
        .ok (some (⟨m.g4⟩,
          if ds.numberAvailable > 0 ∧ ds.numberUnavailable = 0 then "Ready" else "NotReady"))
      | none => scanResticDaemonsets rest

/-- The derived engine status (`VeleroStatus` of the snapshot package);
unset string fields are the Go zero value, the empty string. -/
structure VeleroStatus where
  version : String
  plugins : List String
  status : String
  resticVersion : String
  resticStatus : String
deriving DecidableEq, Repr

/-- Embedding of `DetectVelero` (snapshot package): `ok none` means "not
installed".  An empty detected namespace short-circuits to `ok none`;
otherwise the deployment and daemonset scans fill in versions, plugin
names, and health. -/
def detectVelero (c : DetectCluster) : Except String (Option VeleroStatus) :=
  if !c.configAvailable then .error "failed to get cluster config"
  else
    match detectVeleroNamespace c with
    | .error e => .error e
    | .ok ns =>
      if ns = "" then .ok none
      else
        match listPossibleVeleroDeployments c ns with
        | .error e => .error e
        | .ok deps =>
          match scanVeleroDeployments deps [] with
          | .error e => .error e
          | .ok (plugins, dres) =>
            match listPossibleResticDaemonsets c ns with
            | .error e => .error e
            | .ok dss =>
              match scanResticDaemonsets dss with
              | .error e => .error e
              | .ok rres =>
                .ok (some
                  { version := ((dres.map Prod.fst).getD ""),
                    plugins := plugins,
                    status := ((dres.map Prod.snd).getD ""),
                    resticVersion := ((rres.map Prod.fst).getD ""),
                    resticStatus := ((rres.map Prod.snd).getD "") })

/- ====================================================================
   ImageRewriter: ConfigureVeleroImages
   ==================================================================== -/

/-- Fixed default image constants of the snapshot package. -/
def defaultVeleroImage : String := "velero/velero:v1.5.1"

/-- Default cloud-storage plugin image constant. -/
def defaultVeleroAWSPluginImage : String := "velero/velero-plugin-for-aws:v1.1.0"

/-- Default restore-helper image constant. -/
def defaultVeleroResticRestoreHelperImage : String := "velero/velero-restic-restore-helper:v1.5.1"

/-- Name of the restic restore-action config map. -/
def resticConfigMapName : String := "restic-restore-action-config"

/-- Embedding of `rewriteVeleroImages` (snapshot package): the three image
references start at their defaults with no pull secrets; unless the
cluster is kurl (embedded) with the default kotsadm namespace, each is
passed through the registry rewrite function (`imageRewriteFn`, abstracted
from the kotsadm version package), keeping the pull secrets of the first
rewrite; any single rewrite failure fails the whole operation. -/
def rewriteVeleroImages (isKurl : Bool) (kotsadmNamespace : String)
    (imageRewriteFn : String → Except String (String × List String)) :
    Except String (String × String × String × List String) :=
  if !isKurl ∨ kotsadmNamespace ≠ "default" then
    match imageRewriteFn defaultVeleroImage with
    | .error e => .error e
    | .ok (veleroImage, imagePullSecrets) =>
      match imageRewriteFn defaultVeleroAWSPluginImage with
      | .error e => .error e
      | .ok (awsPluginImage, _) =>
        match imageRewriteFn defaultVeleroResticRestoreHelperImage with
        | .error e => .error e
        | .ok (resticRestoreHelperImage, _) =>
          .ok (veleroImage, awsPluginImage, resticRestoreHelperImage, imagePullSecrets)
  else
    .ok (defaultVeleroImage, defaultVeleroAWSPluginImage,
         defaultVeleroResticRestoreHelperImage, [])

/-- A config map (name, labels, data). -/
structure ConfigMap where
  name : String
  labels : List (String × String)
  data : List (String × String)
deriving DecidableEq, Repr

/-- Embedding of `resticConfigMapResource` (snapshot package): the restic
restore-action config map carrying the rewritten restore-helper image. -/
def resticConfigMapResource (image : String) : ConfigMap :=
  { name := resticConfigMapName,
    labels := [("velero.io/plugin-config", ""), ("velero.io/restic", "RestoreItemAction")],
    data := [("image", image)] }

/-- Go map read. -/
def getMapValue : List (String × String) → String → Option String
  | [], _ => none
  | (k, v) :: rest, key => if k = key then some v else getMapValue rest key

/-- Go map assignment: replace the value at the key, or add the pair. -/
def setMapKey : List (String × String) → String → String → List (String × String)
  | [], k, v => [(k, v)]
  | (k0, v0) :: rest, k, v =>
    if k0 = k then (k, v) :: rest else (k0, v0) :: setMapKey rest k v

/-- Set the image of the first container of a list (`Containers[0].Image =`
assignment; the empty case is guarded by the caller). -/
def setHeadImage : List Container → String → List Container
  | [], _ => []
  | c :: rest, img => { c with image := img } :: rest

/-- The three-field deployment patch of `ConfigureVeleroImages`: pull
secrets list, first init-container image (plugin), first container image
(engine). -/
def patchVeleroDeployment (d : Deployment) (imagePullSecrets : List String)
    (awsPluginImage veleroImage : String) : Deployment :=
  { d with spec := { d.spec with
      imagePullSecrets := imagePullSecrets,
      initContainers := setHeadImage d.spec.initContainers awsPluginImage,
      containers := setHeadImage d.spec.containers veleroImage } }

/-- The two-field daemonset patch of `ConfigureVeleroImages`: pull secrets
list and first container image (engine). -/
def patchResticDaemonSet (ds : DaemonSet) (imagePullSecrets : List String)
    (veleroImage : String) : DaemonSet :=
  { ds with spec := { ds.spec with
      imagePullSecrets := imagePullSecrets,
      containers := setHeadImage ds.spec.containers veleroImage } }

/-- The restic config map reconciliation of `ConfigureVeleroImages`: when
the restore-helper image was rewritten away from its default, the config
map is created if absent or its `"image"` data key updated if present;
when it equals the default, the config map is deleted (deleting an absent
map is success). -/
def reconcileResticConfigMap (configMaps : List ConfigMap)
    (resticRestoreHelperImage : String) : List ConfigMap :=
  if resticRestoreHelperImage ≠ defaultVeleroResticRestoreHelperImage then
    match configMaps.find? (fun cm => cm.name == resticConfigMapName) with
    | none => configMaps ++ [resticConfigMapResource resticRestoreHelperImage]
    | some _ =>
      configMaps.map (fun cm =>
        if cm.name == resticConfigMapName then
          { cm with data := setMapKey cm.data "image" resticRestoreHelperImage }
        else cm)
  else configMaps.filter (fun cm => cm.name != resticConfigMapName)

/-- The engine-namespace cluster state mutated by `ConfigureVeleroImages`:
the velero deployment, the restic daemonset, the config maps of the velero
namespace, and whether the private registry secret has been ensured. -/
structure VeleroClusterState where
  veleroDeployment : Option Deployment
  resticDaemonSet : Option DaemonSet
  configMaps : List ConfigMap
  registrySecretEnsured : Bool
deriving DecidableEq, Repr

/-- Embedding of `ConfigureVeleroImages` (snapshot package): a no-op on
kurl (embedded) clusters in the default namespace; otherwise rewrite the
images, ensure the registry secret, patch the velero deployment (three
fields), reconcile the restic config map, and patch the restic daemonset
(two fields).  A missing deployment or daemonset is an error, and an empty
container list is the Go index panic, modelled as an error. -/
def configureVeleroImages (isKurl : Bool) (kotsadmNamespace : String)
    (imageRewriteFn : String → Except String (String × List String))
    (st : VeleroClusterState) : Except String VeleroClusterState :=
  if isKurl = true ∧ kotsadmNamespace = "default" then .ok st
  else
    match rewriteVeleroImages isKurl kotsadmNamespace imageRewriteFn with
    | .error _ => .error "failed to rewrite images"
    | .ok (veleroImage, awsPluginImage, resticRestoreHelperImage, imagePullSecrets) =>
      let st := { st with registrySecretEnsured := true }
      match st.veleroDeployment with
      | none => .error "failed to get velero deployment"
      | some d =>
        if d.spec.initContainers = [] ∨ d.spec.containers = [] then
          .error "panic: index out of range"
        else
          let st :=
            { st with
              veleroDeployment :=
                some (patchVeleroDeployment d imagePullSecrets awsPluginImage veleroImage) }
          let st :=
            { st with
              configMaps := reconcileResticConfigMap st.configMaps resticRestoreHelperImage }
          match st.resticDaemonSet with
          | none => .error "failed to get restic daemonset"
          | some ds =>
            if ds.spec.containers = [] then .error "panic: index out of range"
            else
              .ok { st with
                    resticDaemonSet :=
                      some (patchResticDaemonSet ds imagePullSecrets veleroImage) }

end KotsSnapshot

/- ====================================================================
   Theorems
   ==================================================================== -/

namespace KotsSnapshot

/-- C1: after the backend is provisioned against `A`, deploying with a
different desired config `B` and `forceReset = false` fails with the
distinguished `ResetNFSError` conflict kind (never the other error kind);
the HTTP handler surfaces it as a 409 conflict; the CLI caller, on user
confirmation, re-invokes with `forceReset = true` and succeeds with the
backend bound to `B`; and a subsequent deploy of `B` without force is an
idempotent no-op. -/
theorem nfs_conflict_then_force_reset (g : Nat) (A B : NFSConfig) (hne : A ≠ B) :
    (deployNFSMinio ⟨some A, g⟩ B false
       = .error (.resetNFS (nfsMismatchMessage A B))) ∧
    (configureNFSSnapshotsErrorStatus ⟨some A, g⟩ B false
       = some (409, nfsMismatchMessage A B)) ∧
    (backupConfigureNFSDeploy ⟨some A, g⟩ B true = .success ⟨some B, g + 1⟩) ∧
    (deployNFSMinio ⟨some B, g + 1⟩ B false = .ok ⟨some B, g + 1⟩) := by
  have hAB : ¬ (A = B) := hne
  refine ⟨?_, ?_, ?_, ?_⟩
  · simp [deployNFSMinio, hAB]
  · simp [configureNFSSnapshotsErrorStatus, deployNFSMinio, hAB]
  · simp [backupConfigureNFSDeploy, deployNFSMinio, hAB]
  · simp [deployNFSMinio]

/-- Witness for C1 at concrete NFS configurations. -/
theorem nfs_conflict_then_force_reset_witness :
    (⟨"/export", "10.0.0.1"⟩ : NFSConfig) ≠ (⟨"/backup", "10.0.0.2"⟩ : NFSConfig) ∧
    ((deployNFSMinio ⟨some ⟨"/export", "10.0.0.1"⟩, 0⟩ ⟨"/backup", "10.0.0.2"⟩ false
       = .error (.resetNFS
           (nfsMismatchMessage ⟨"/export", "10.0.0.1"⟩ ⟨"/backup", "10.0.0.2"⟩))) ∧
     (configureNFSSnapshotsErrorStatus ⟨some ⟨"/export", "10.0.0.1"⟩, 0⟩
        ⟨"/backup", "10.0.0.2"⟩ false
       = some (409, nfsMismatchMessage ⟨"/export", "10.0.0.1"⟩ ⟨"/backup", "10.0.0.2"⟩)) ∧
     (backupConfigureNFSDeploy ⟨some ⟨"/export", "10.0.0.1"⟩, 0⟩
        ⟨"/backup", "10.0.0.2"⟩ true = .success ⟨some ⟨"/backup", "10.0.0.2"⟩, 1⟩) ∧
     (deployNFSMinio ⟨some ⟨"/backup", "10.0.0.2"⟩, 1⟩ ⟨"/backup", "10.0.0.2"⟩ false
       = .ok ⟨some ⟨"/backup", "10.0.0.2"⟩, 1⟩)) :=
  ⟨by decide, nfs_conflict_then_force_reset 0 _ _ (by decide)⟩

/-- C2: for a workload with stored schedule `S` and a save request carrying
a valid retention and a valid cron expression `C` with auto-scheduling on:
if `C` differs from `S`, both handlers delete all pending snapshot requests
and create exactly one new pending request queued at `C`'s next occurrence
after the current time (`next sched now`), storing `C`; if `C` equals `S`,
the pending requests are left exactly as they were. -/
theorem save_schedule_change_pending_requests
    (st : ScheduleState) (req : SaveSnapshotConfigRequest) (now : Nat)
    (freshId : String) (next : CronSched → Nat → Nat) (sched : CronSched) (ret : String)
    (hauto : req.autoEnabled = true)
    (hcron : parseCronStandard req.schedule = some sched)
    (httl : formatTTL req.inputValue req.inputTimeUnit = some ret) :
    (req.schedule ≠ st.snapshotSchedule →
      ((saveSnapshotConfig st req now freshId next).1 = .ok ∧
       (saveSnapshotConfig st req now freshId next).2.pendingSnapshots
         = [⟨freshId, next sched now⟩] ∧
       (saveSnapshotConfig st req now freshId next).2.snapshotSchedule = req.schedule) ∧
      ((saveInstanceSnapshotConfig st req now freshId next).1 = .ok ∧
       (saveInstanceSnapshotConfig st req now freshId next).2.pendingSnapshots
         = [⟨freshId, next sched now⟩] ∧
       (saveInstanceSnapshotConfig st req now freshId next).2.snapshotSchedule
         = req.schedule)) ∧
    (req.schedule = st.snapshotSchedule →
      (saveSnapshotConfig st req now freshId next).1 = .ok ∧
      (saveSnapshotConfig st req now freshId next).2.pendingSnapshots
        = st.pendingSnapshots ∧
      (saveInstanceSnapshotConfig st req now freshId next).1 = .ok ∧
      (saveInstanceSnapshotConfig st req now freshId next).2.pendingSnapshots
        = st.pendingSnapshots) := by
  constructor
  · intro h
    by_cases hTTL : st.snapshotTTL = ret <;>
      exact ⟨by simp [saveSnapshotConfig, httl, hcron, hauto, hTTL, h],
             by simp [saveInstanceSnapshotConfig, httl, hcron, hauto, hTTL, h]⟩
  · intro h
    rw [h] at hcron
    by_cases hTTL : st.snapshotTTL = ret <;>
      refine ⟨?_, ?_, ?_, ?_⟩ <;>
      simp [saveSnapshotConfig, saveInstanceSnapshotConfig, httl, hcron, hauto, hTTL, h]

/-- Witness for C2 at a concrete state and request. -/
theorem save_schedule_change_pending_requests_witness :
    (⟨"1", "month", "0 0 * * MON", true⟩ : SaveSnapshotConfigRequest).autoEnabled = true ∧
    parseCronStandard "0 0 * * MON"
      = some (.fields [0] [0] (expandRange 1 31 1) (expandRange 1 12 1) [1]) ∧
    formatTTL "1" "month" = some "720h" ∧
    ("0 0 * * MON" : String) ≠ "" ∧
    (saveSnapshotConfig ⟨"", "720h", [⟨"old1", 5⟩, ⟨"old2", 9⟩]⟩
        ⟨"1", "month", "0 0 * * MON", true⟩ 0 "abc" (fun _ t => t + 100)).2.pendingSnapshots
      = [⟨"abc", 100⟩] := by
  refine ⟨rfl, by decide, by decide, by decide, ?_⟩
  exact (((save_schedule_change_pending_requests
    ⟨"", "720h", [⟨"old1", 5⟩, ⟨"old2", 9⟩]⟩ ⟨"1", "month", "0 0 * * MON", true⟩ 0 "abc"
    (fun _ t => t + 100) (.fields [0] [0] (expandRange 1 31 1) (expandRange 1 12 1) [1])
    "720h" rfl (by decide) (by decide)).1 (by decide)).1).2.1

/-- C3 counterexample: a save request with an invalid cron expression but a
valid retention differing from the stored one fails with the validation
error, yet the stored retention TTL has already been mutated (from
`"720h"` to `"1440h"`), so persisted state is not left unchanged. -/
theorem save_invalid_cron_mutates_ttl :
    (saveSnapshotConfig ⟨"0 0 * * MON", "720h", [⟨"p1", 100⟩]⟩
        ⟨"2", "month", "not-a-cron", true⟩ 0 "newid" (fun _ _ => 0))
      = (.badRequest "Invalid cron schedule expression: not-a-cron",
         ⟨"0 0 * * MON", "1440h", [⟨"p1", 100⟩]⟩) ∧
    ("1440h" : String) ≠ "720h" := by
  constructor
  · rfl
  · decide

/-- C3 as amended: a save request with auto-scheduling on whose cron
expression is syntactically invalid fails with a validation error
(`badRequest`) and leaves the stored schedule and the pending snapshot
request set unchanged, in both handlers (the stored retention TTL, however,
may already have been updated, since retention is persisted before cron
validation). -/
theorem save_invalid_cron_leaves_schedule_and_pending
    (st : ScheduleState) (req : SaveSnapshotConfigRequest) (now : Nat)
    (freshId : String) (next : CronSched → Nat → Nat)
    (hauto : req.autoEnabled = true)
    (hcron : parseCronStandard req.schedule = none) :
    (∃ msg, (saveSnapshotConfig st req now freshId next).1 = .badRequest msg) ∧
    (saveSnapshotConfig st req now freshId next).2.snapshotSchedule
      = st.snapshotSchedule ∧
    (saveSnapshotConfig st req now freshId next).2.pendingSnapshots
      = st.pendingSnapshots ∧
    (∃ msg, (saveInstanceSnapshotConfig st req now freshId next).1 = .badRequest msg) ∧
    (saveInstanceSnapshotConfig st req now freshId next).2.snapshotSchedule
      = st.snapshotSchedule ∧
    (saveInstanceSnapshotConfig st req now freshId next).2.pendingSnapshots
      = st.pendingSnapshots := by
  cases httl : formatTTL req.inputValue req.inputTimeUnit with
  | none =>
    refine ⟨⟨"Invalid snapshot retention: " ++ req.inputValue ++ " " ++ req.inputTimeUnit,
        ?_⟩, ?_, ?_,
      ⟨"Invalid instance snapshot retention: " ++ req.inputValue ++ " " ++ req.inputTimeUnit,
        ?_⟩, ?_, ?_⟩ <;>
      simp [saveSnapshotConfig, saveInstanceSnapshotConfig, httl]
  | some ret =>
    by_cases hTTL : st.snapshotTTL = ret <;>
      refine ⟨⟨"Invalid cron schedule expression: " ++ req.schedule, ?_⟩, ?_, ?_,
        ⟨"Invalid cron schedule expression: " ++ req.schedule, ?_⟩, ?_, ?_⟩ <;>
      simp [saveSnapshotConfig, saveInstanceSnapshotConfig, httl, hcron, hauto, hTTL]

/-- Witness for the amended C3 at a concrete state and request. -/
theorem save_invalid_cron_leaves_schedule_and_pending_witness :
    (⟨"2", "month", "not-a-cron", true⟩ : SaveSnapshotConfigRequest).autoEnabled = true ∧
    parseCronStandard "not-a-cron" = none ∧
    (saveSnapshotConfig ⟨"0 0 * * MON", "720h", [⟨"p1", 100⟩]⟩
        ⟨"2", "month", "not-a-cron", true⟩ 0 "newid" (fun _ _ => 0)).2.pendingSnapshots
      = [⟨"p1", 100⟩] := by
  refine ⟨rfl, by decide, ?_⟩
  exact (save_invalid_cron_leaves_schedule_and_pending
    ⟨"0 0 * * MON", "720h", [⟨"p1", 100⟩]⟩ ⟨"2", "month", "not-a-cron", true⟩ 0 "newid"
    (fun _ _ => 0) rfl (by decide)).2.2.1

/-- C4: for a workload in the enabled state (a nonempty stored schedule),
a save request with auto-scheduling off and a valid retention succeeds,
clears the stored cron expression to the empty string, and deletes all
pending snapshot requests, in both handlers. -/
theorem save_auto_disabled_clears_schedule
    (st : ScheduleState) (req : SaveSnapshotConfigRequest) (now : Nat)
    (freshId : String) (next : CronSched → Nat → Nat) (ret : String)
    (hauto : req.autoEnabled = false)
    (httl : formatTTL req.inputValue req.inputTimeUnit = some ret)
    (_henabled : st.snapshotSchedule ≠ "") :
    (saveSnapshotConfig st req now freshId next).1 = .ok ∧
    (saveSnapshotConfig st req now freshId next).2.snapshotSchedule = "" ∧
    (saveSnapshotConfig st req now freshId next).2.pendingSnapshots = [] ∧
    (saveInstanceSnapshotConfig st req now freshId next).1 = .ok ∧
    (saveInstanceSnapshotConfig st req now freshId next).2.snapshotSchedule = "" ∧
    (saveInstanceSnapshotConfig st req now freshId next).2.pendingSnapshots = [] := by
  by_cases hTTL : st.snapshotTTL = ret <;>
    refine ⟨?_, ?_, ?_, ?_, ?_, ?_⟩ <;>
    simp [saveSnapshotConfig, saveInstanceSnapshotConfig, httl, hauto, hTTL]

/-- Witness for C4 at a concrete enabled state. -/
theorem save_auto_disabled_clears_schedule_witness :
    (⟨"1", "month", "", false⟩ : SaveSnapshotConfigRequest).autoEnabled = false ∧
    formatTTL "1" "month" = some "720h" ∧
    ("0 0 * * MON" : String) ≠ "" ∧
    (saveSnapshotConfig ⟨"0 0 * * MON", "720h", [⟨"p1", 100⟩]⟩
        ⟨"1", "month", "", false⟩ 0 "x" (fun _ _ => 0)).2.snapshotSchedule = "" := by
  refine ⟨rfl, by decide, by decide, ?_⟩
  exact (save_auto_disabled_clears_schedule ⟨"0 0 * * MON", "720h", [⟨"p1", 100⟩]⟩
    ⟨"1", "month", "", false⟩ 0 "x" (fun _ _ => 0) "720h" rfl (by decide) (by decide)).2.1

/-- C9: in both snapshot-config read handlers, a workload with an empty
stored retention displays retention quantity `"1"`, unit `"month"`,
converted duration `"720h"`; and whenever the stored cron expression is
empty, any successful read reports the default schedule `"0 0 * * MON"`
with auto-scheduling disabled. -/
theorem snapshot_config_defaults (st : ScheduleState) :
    (st.snapshotTTL = "" →
      ∃ v, getSnapshotConfig st = some v ∧ getInstanceSnapshotConfig st = some v ∧
        v.ttl = ⟨"1", "month", "720h"⟩) ∧
    (st.snapshotSchedule = "" →
      (∀ v, getSnapshotConfig st = some v →
        v.schedule = "0 0 * * MON" ∧ v.autoEnabled = false) ∧
      (∀ v, getInstanceSnapshotConfig st = some v →
        v.schedule = "0 0 * * MON" ∧ v.autoEnabled = false)) := by
  constructor
  · intro h
    refine ⟨⟨st.snapshotSchedule ≠ "",
        if st.snapshotSchedule ≠ "" then st.snapshotSchedule else "0 0 * * MON",
        ⟨"1", "month", "720h"⟩⟩, ?_, ?_, rfl⟩ <;>
      simp [getSnapshotConfig, getInstanceSnapshotConfig, h]
  · intro h
    refine ⟨fun v hv => ?_, fun v hv => ?_⟩
    · simp only [getSnapshotConfig] at hv
      split at hv
      · exact absurd hv (by simp)
      · obtain rfl := Option.some.inj hv
        simp [h]
    · simp only [getInstanceSnapshotConfig] at hv
      split at hv
      · exact absurd hv (by simp)
      · obtain rfl := Option.some.inj hv
        simp [h]

/-- Witness for C9 at a concrete empty state. -/
theorem snapshot_config_defaults_witness :
    (((⟨"", "", []⟩ : ScheduleState).snapshotTTL = "") ∧
     ∃ v, getSnapshotConfig ⟨"", "", []⟩ = some v ∧
       getInstanceSnapshotConfig ⟨"", "", []⟩ = some v ∧
       v.ttl = ⟨"1", "month", "720h"⟩) :=
  ⟨rfl, (snapshot_config_defaults ⟨"", "", []⟩).1 rfl⟩

/- Helper lemmas for the image tokenizer and detection theorems. -/

/-- Membership survives `dropWhile`. -/
theorem mem_of_mem_dropWhile {p : Char → Bool} {x : Char} :
    ∀ {l : List Char}, x ∈ l.dropWhile p → x ∈ l := by
  intro l h
  induction l with
  | nil => simp at h
  | cons a t ih =>
    rw [List.dropWhile_cons] at h
    split at h
    · exact List.mem_cons_of_mem a (ih h)
    · exact h

/-- The separator returned by the image-core matcher is an at-sign or a
colon occurring in the input. -/
theorem matchImageCore_sep {s : List Char} {a : List Char} {c : Char} {v : List Char}
    (h : matchImageCore s = some (a, c, v)) : c ∈ s ∧ (c = '@' ∨ c = ':') := by
  unfold matchImageCore at h
  split at h
  · rename_i c0 rest ht
    split at h
    · rename_i hcond
      split at h
      · simp at h
      · obtain ⟨-, hceq, -⟩ : _ ∧ c0 = c ∧ _ := by simpa using h
        refine ⟨hceq ▸ mem_of_mem_dropWhile (ht ▸ List.mem_cons_self c0 rest),
                hceq ▸ hcond.1⟩
    · simp at h
  · simp at h

/-- On input without a colon or an at-sign, the image core cannot
match. -/
theorem matchImageCore_eq_none {s : List Char}
    (h : ∀ ch ∈ s, ch ≠ ':' ∧ ch ≠ '@') : matchImageCore s = none := by
  cases hm : matchImageCore s with
  | none => rfl
  | some x =>
    obtain ⟨a, c, v⟩ := x
    obtain ⟨hmem, hsep⟩ := matchImageCore_sep hm
    obtain ⟨hc1, hc2⟩ := h c hmem
    cases hsep with
    | inl hh => exact absurd hh hc2
    | inr hh => exact absurd hh hc1

/-- The remainder returned by the optional slash-group matcher is made of
characters of the input. -/
theorem matchSlashGroup_subset {s a s1 : List Char}
    (h : matchSlashGroup s = some (a, s1)) : ∀ x ∈ s1, x ∈ s := by
  unfold matchSlashGroup at h
  split at h
  · rename_i rest ht
    split at h
    · simp at h
    · obtain ⟨-, rfl⟩ : _ ∧ rest = s1 := by simpa using h
      intro x hx
      exact mem_of_mem_dropWhile (ht ▸ List.mem_cons_of_mem _ hx)
  · simp at h

/-- On input without a colon or an at-sign, the anchored whole-pattern
matcher fails. -/
theorem matchImageAt_eq_none {s : List Char}
    (h : ∀ ch ∈ s, ch ≠ ':' ∧ ch ≠ '@') : matchImageAt s = none := by
  unfold matchImageAt
  have hcore := matchImageCore_eq_none h
  cases h1 : matchSlashGroup s with
  | none => simp [h1, hcore]
  | some p =>
    obtain ⟨a1, s1⟩ := p
    have hs1 : ∀ ch ∈ s1, ch ≠ ':' ∧ ch ≠ '@' :=
      fun ch hch => h ch (matchSlashGroup_subset h1 ch hch)
    have hcore1 := matchImageCore_eq_none hs1
    cases h2 : matchSlashGroup s1 with
    | none => simp [h1, h2, hcore, hcore1]
    | some q =>
      obtain ⟨a2, s2⟩ := q
      have hs2 : ∀ ch ∈ s2, ch ≠ ':' ∧ ch ≠ '@' :=
        fun ch hch => hs1 ch (matchSlashGroup_subset h2 ch hch)
      simp [h1, h2, hcore, hcore1, matchImageCore_eq_none hs2]

/-- On input without a colon or an at-sign, the leftmost-match search
fails. -/
theorem findImageMatch_eq_none {s : List Char}
    (h : ∀ ch ∈ s, ch ≠ ':' ∧ ch ≠ '@') : findImageMatch s = none := by
  induction s with
  | nil => rfl
  | cons c rest ih =>
    unfold findImageMatch
    rw [matchImageAt_eq_none h]
    exact ih (fun ch hch => h ch (List.mem_cons_of_mem c hch))

/-- C7: the image-reference tokenizer applied to `"velero/velero:v1.5.1"`
yields the five submatches with the tag capture `"v1.5.1"` as the version;
on any reference containing no colon and no at-sign (no tag or digest) it
does not match at all (an empty submatch list, fewer than five groups);
and the deployment scan of `DetectVelero` over such references finishes
with the version unset and raises no error. -/
theorem docker_image_name_regex_version :
    dockerImageNameSubmatch "velero/velero:v1.5.1"
      = ["velero/velero:v1.5.1", "velero", "", "velero", "v1.5.1"] ∧
    (∀ s : String, (∀ ch ∈ s.data, ch ≠ ':' ∧ ch ≠ '@') →
      dockerImageNameSubmatch s = []) ∧
    (∀ l : List Deployment,
      (∀ d ∈ l, ∃ c0 cs, d.spec.containers = c0 :: cs ∧
        ∀ ch ∈ c0.image.data, ch ≠ ':' ∧ ch ≠ '@') →
      ∀ plugins, ∃ plugins2,
        scanVeleroDeployments l plugins = .ok (plugins2, none)) := by
  refine ⟨by decide, ?_, ?_⟩
  · intro s hs
    unfold dockerImageNameSubmatch
    rw [findImageMatch_eq_none hs]
  · intro l
    induction l with
    | nil => exact fun _ plugins => ⟨plugins, rfl⟩
    | cons d t ih =>
      intro hl plugins
      obtain ⟨c0, cs, hc, himg⟩ := hl d (List.mem_cons_self d t)
      unfold scanVeleroDeployments
      simp only [hc, findImageMatch_eq_none himg]
      exact ih (fun x hx => hl x (List.mem_cons_of_mem d hx)) _

/-- Witness for C7 at a concrete tagless reference and workload. -/
theorem docker_image_name_regex_version_witness :
    (∀ ch ∈ ("velero/velero" : String).data, ch ≠ ':' ∧ ch ≠ '@') ∧
    dockerImageNameSubmatch "velero/velero" = [] ∧
    (∃ plugins2,
      scanVeleroDeployments
        [⟨"velero", [("component", "velero")],
          ⟨[], [⟨"velero-plugin-for-aws", "plugins/aws"⟩], [⟨"velero", "velero/velero"⟩],
           "velero", []⟩, 1, 1⟩] []
        = .ok (plugins2, none)) :=
  ⟨by decide, docker_image_name_regex_version.2.1 "velero/velero" (by decide),
   docker_image_name_regex_version.2.2 _
     (by
       intro d hd
       simp only [List.mem_singleton] at hd
       subst hd
       exact ⟨_, _, rfl, by decide⟩) []⟩

/-- C5: when the cluster config is constructible and either the
backup-storage-location list call errors or no location named `"default"`
exists, namespace detection returns the empty namespace with no error, and
`DetectVelero` consequently returns "not installed" (`ok none`), not an
error. -/
theorem detect_velero_absent_default (c : DetectCluster)
    (hcfg : c.configAvailable = true)
    (habs : c.bslListErr = true ∨ ∀ b ∈ c.bsls, b.name ≠ "default") :
    detectVeleroNamespace c = .ok "" ∧ detectVelero c = .ok none := by
  have hns : detectVeleroNamespace c = .ok "" := by
    unfold detectVeleroNamespace
    cases habs with
    | inl he => simp [hcfg, he]
    | inr hnone =>
      have hfind : c.bsls.find? (fun b => b.name == "default") = none := by
        rw [List.find?_eq_none]
        intro b hb
        simpa using hnone b hb
      cases hbe : c.bslListErr with
      | true => simp [hcfg, hbe]
      | false => simp [hcfg, hbe, hfind]
  refine ⟨hns, ?_⟩
  unfold detectVelero
  rw [hns]
  simp [hcfg]

/-- Witness for C5 at a concrete cluster with no default location. -/
theorem detect_velero_absent_default_witness :
    ((⟨true, false, [⟨"other", "velero"⟩], false, [], []⟩ : DetectCluster).configAvailable
       = true) ∧
    (∀ b ∈ (⟨true, false, [⟨"other", "velero"⟩], false, [], []⟩ : DetectCluster).bsls,
       b.name ≠ "default") ∧
    detectVelero ⟨true, false, [⟨"other", "velero"⟩], false, [], []⟩ = .ok none :=
  ⟨rfl, by decide,
   (detect_velero_absent_default ⟨true, false, [⟨"other", "velero"⟩], false, [], []⟩ rfl
     (.inr (by decide))).2⟩

/-- C6: on a kurl (embedded) cluster whose kotsadm namespace is the
default namespace, image rewriting is a complete no-op for every registry
rewrite function: the three image references come back equal to their
fixed default constants with an empty pull-secret list, and
`ConfigureVeleroImages` succeeds leaving the cluster state exactly
unchanged. -/
theorem kurl_default_namespace_noop
    (f : String → Except String (String × List String)) (st : VeleroClusterState) :
    configureVeleroImages true "default" f st = .ok st ∧
    rewriteVeleroImages true "default" f
      = .ok (defaultVeleroImage, defaultVeleroAWSPluginImage,
             defaultVeleroResticRestoreHelperImage, []) := by
  constructor
  · simp [configureVeleroImages]
  · simp [rewriteVeleroImages]

/-- C8 counterexample: the daemonset patch applied with rewritten images
changes only the pull-secret list and the first main container image; the
first init-container of the daemonset keeps its old image (here distinct
from the rewritten plugin image), so the patch does not modify three
fields on this workload. -/
theorem daemonset_patch_two_fields :
    (patchResticDaemonSet
        ⟨"restic", [("component", "velero")],
          ⟨[], [⟨"velero-plugin-for-aws", "old-plugin-image"⟩],
           [⟨"restic", "velero/velero:v1.5.1"⟩], "velero", []⟩, 1, 0⟩
        ["kotsadm-replicated-registry"]
        "registry.example.com/velero:v1.5.1").spec.initContainers
      = [⟨"velero-plugin-for-aws", "old-plugin-image"⟩] ∧
    (patchResticDaemonSet
        ⟨"restic", [("component", "velero")],
          ⟨[], [⟨"velero-plugin-for-aws", "old-plugin-image"⟩],
           [⟨"restic", "velero/velero:v1.5.1"⟩], "velero", []⟩, 1, 0⟩
        ["kotsadm-replicated-registry"]
        "registry.example.com/velero:v1.5.1").spec.imagePullSecrets
      = ["kotsadm-replicated-registry"] ∧
    (patchResticDaemonSet
        ⟨"restic", [("component", "velero")],
          ⟨[], [⟨"velero-plugin-for-aws", "old-plugin-image"⟩],
           [⟨"restic", "velero/velero:v1.5.1"⟩], "velero", []⟩, 1, 0⟩
        ["kotsadm-replicated-registry"]
        "registry.example.com/velero:v1.5.1").spec.containers
      = [⟨"restic", "registry.example.com/velero:v1.5.1"⟩] ∧
    ("old-plugin-image" : String) ≠ "registry.example.com/velero-plugin-for-aws:v1.1.0" := by
  refine ⟨rfl, rfl, rfl, by decide⟩

/-- C8 as amended: applying the rewritten images patches the velero
deployment in exactly three pod-spec fields (pull secrets, first
init-container image, first container image) and the restic daemonset in
exactly two (pull secrets, first container image); every other field —
names, labels, replica counts, service account, volumes, the remaining
containers, and the daemonset's init containers — is unchanged. -/
theorem apply_rewritten_images_frame
    (d : Deployment) (ds : DaemonSet) (secrets : List String) (aws velero : String)
    (c0 i0 e0 : Container) (ci ii ei : List Container)
    (hc : d.spec.containers = c0 :: ci)
    (hi : d.spec.initContainers = i0 :: ii)
    (he : ds.spec.containers = e0 :: ei) :
    ((patchVeleroDeployment d secrets aws velero).name = d.name ∧
     (patchVeleroDeployment d secrets aws velero).labels = d.labels ∧
     (patchVeleroDeployment d secrets aws velero).replicas = d.replicas ∧
     (patchVeleroDeployment d secrets aws velero).availableReplicas = d.availableReplicas ∧
     (patchVeleroDeployment d secrets aws velero).spec.serviceAccountName
       = d.spec.serviceAccountName ∧
     (patchVeleroDeployment d secrets aws velero).spec.volumes = d.spec.volumes ∧
     (patchVeleroDeployment d secrets aws velero).spec.imagePullSecrets = secrets ∧
     (patchVeleroDeployment d secrets aws velero).spec.initContainers
       = { i0 with image := aws } :: ii ∧
     (patchVeleroDeployment d secrets aws velero).spec.containers
       = { c0 with image := velero } :: ci) ∧
    ((patchResticDaemonSet ds secrets velero).name = ds.name ∧
     (patchResticDaemonSet ds secrets velero).labels = ds.labels ∧
     (patchResticDaemonSet ds secrets velero).numberAvailable = ds.numberAvailable ∧
     (patchResticDaemonSet ds secrets velero).numberUnavailable = ds.numberUnavailable ∧
     (patchResticDaemonSet ds secrets velero).spec.serviceAccountName
       = ds.spec.serviceAccountName ∧
     (patchResticDaemonSet ds secrets velero).spec.volumes = ds.spec.volumes ∧
     (patchResticDaemonSet ds secrets velero).spec.initContainers = ds.spec.initContainers ∧
     (patchResticDaemonSet ds secrets velero).spec.imagePullSecrets = secrets ∧
     (patchResticDaemonSet ds secrets velero).spec.containers
       = { e0 with image := velero } :: ei) := by
  refine ⟨⟨rfl, rfl, rfl, rfl, rfl, rfl, rfl, ?_, ?_⟩,
          ⟨rfl, rfl, rfl, rfl, rfl, rfl, rfl, rfl, ?_⟩⟩ <;>
    simp [patchVeleroDeployment, patchResticDaemonSet, setHeadImage, hc, hi, he]

/-- Witness for the amended C8 at concrete workloads. -/
theorem apply_rewritten_images_frame_witness :
    ((⟨"velero", [], ⟨[], [⟨"aws", "a0"⟩], [⟨"velero", "v0"⟩], "sa", ["vol"]⟩, 1, 1⟩ :
        Deployment).spec.containers = ⟨"velero", "v0"⟩ :: []) ∧
    ((⟨"velero", [], ⟨[], [⟨"aws", "a0"⟩], [⟨"velero", "v0"⟩], "sa", ["vol"]⟩, 1, 1⟩ :
        Deployment).spec.initContainers = ⟨"aws", "a0"⟩ :: []) ∧
    ((⟨"restic", [], ⟨[], [], [⟨"restic", "r0"⟩], "sa", []⟩, 1, 0⟩ :
        DaemonSet).spec.containers = ⟨"restic", "r0"⟩ :: []) ∧
    (patchVeleroDeployment
        ⟨"velero", [], ⟨[], [⟨"aws", "a0"⟩], [⟨"velero", "v0"⟩], "sa", ["vol"]⟩, 1, 1⟩
        ["sec"] "a1" "v1").spec.volumes
      = (⟨"velero", [], ⟨[], [⟨"aws", "a0"⟩], [⟨"velero", "v0"⟩], "sa", ["vol"]⟩, 1, 1⟩ :
          Deployment).spec.volumes :=
  ⟨rfl, rfl, rfl,
   ((apply_rewritten_images_frame
      ⟨"velero", [], ⟨[], [⟨"aws", "a0"⟩], [⟨"velero", "v0"⟩], "sa", ["vol"]⟩, 1, 1⟩
      ⟨"restic", [], ⟨[], [], [⟨"restic", "r0"⟩], "sa", []⟩, 1, 0⟩
      ["sec"] "a1" "v1" ⟨"velero", "v0"⟩ ⟨"aws", "a0"⟩ ⟨"restic", "r0"⟩ [] [] []
      rfl rfl rfl).1).2.2.2.2.2.1⟩

/- Helper lemmas for the restic config map reconciliation. -/

/-- Reading a Go map right after assigning a key yields the assigned
value. -/
theorem getMapValue_setMapKey :
    ∀ (m : List (String × String)) (k v : String),
      getMapValue (setMapKey m k v) k = some v
  | [], k, v => by simp [setMapKey, getMapValue]
  | (k0, v0) :: rest, k, v => by
    by_cases h : k0 = k
    · simp [setMapKey, getMapValue, h]
    · simp [setMapKey, getMapValue, h, getMapValue_setMapKey rest k v]

/-- `find?` skips an unmatched first part of an append. -/
theorem find?_append_of_none {α : Type _} {p : α → Bool} (l1 l2 : List α)
    (h : l1.find? p = none) : (l1 ++ l2).find? p = l2.find? p := by
  induction l1 with
  | nil => simp
  | cons a t ih =>
    by_cases hp : p a
    · rw [List.find?_cons_of_pos _ hp] at h
      exact absurd h (by simp)
    · rw [List.find?_cons_of_neg _ hp] at h
      rw [List.cons_append, List.find?_cons_of_neg _ hp]
      exact ih h

/-- `find?` commutes with a map that preserves the predicate. -/
theorem find?_map_of_pred {α : Type _} (f : α → α) (p : α → Bool)
    (hp : ∀ x, p (f x) = p x) :
    ∀ l : List α, (l.map f).find? p = (l.find? p).map f := by
  intro l
  induction l with
  | nil => rfl
  | cons a t ih =>
    by_cases hpa : p a
    · rw [List.map_cons, List.find?_cons_of_pos _ (by rw [hp]; exact hpa),
          List.find?_cons_of_pos _ hpa, Option.map_some']
    · rw [List.map_cons, List.find?_cons_of_neg _ (by rw [hp]; exact hpa),
          List.find?_cons_of_neg _ hpa]
      exact ih

/-- After reconciliation with a rewritten (non-default) restore-helper
image, the restic config map exists and its `"image"` data key holds the
rewritten reference. -/
theorem reconcile_configmap_rewritten (l : List ConfigMap) (r : String)
    (hne : r ≠ defaultVeleroResticRestoreHelperImage) :
    ∃ cm, (reconcileResticConfigMap l r).find? (fun x => x.name == resticConfigMapName)
        = some cm ∧ cm.name = resticConfigMapName ∧ getMapValue cm.data "image" = some r := by
  unfold reconcileResticConfigMap
  rw [if_pos hne]
  cases hf : l.find? (fun cm => cm.name == resticConfigMapName) with
  | none =>
    refine ⟨resticConfigMapResource r, ?_, rfl, ?_⟩
    · rw [find?_append_of_none _ _ hf]
      simp [resticConfigMapResource, resticConfigMapName, List.find?]
    · simp [resticConfigMapResource, getMapValue]
  | some cm0 =>
    have hp : (cm0.name == resticConfigMapName) = true := by
      have := List.find?_some hf
      simpa using this
    refine ⟨{ cm0 with data := setMapKey cm0.data "image" r }, ?_, ?_, ?_⟩
    · rw [find?_map_of_pred
        (fun cm => if cm.name == resticConfigMapName then
          { cm with data := setMapKey cm.data "image" r } else cm)
        (fun x => x.name == resticConfigMapName)
        (fun x => by by_cases hx : x.name == resticConfigMapName <;> simp [hx]) l, hf]
      have hname : cm0.name = resticConfigMapName := by simpa using hp
      simp [hname]
    · simpa using hp
    · exact getMapValue_setMapKey cm0.data "image" r

/-- After reconciliation with the default restore-helper image, no restic
config map remains. -/
theorem reconcile_configmap_default (l : List ConfigMap) :
    (reconcileResticConfigMap l defaultVeleroResticRestoreHelperImage).find?
      (fun x => x.name == resticConfigMapName) = none := by
  unfold reconcileResticConfigMap
  rw [if_neg (by simp), List.find?_eq_none]
  intro x hx
  have hq := (List.mem_filter.mp hx).2
  simpa using hq

/-- Success shape of `ConfigureVeleroImages` on the rewriting path: with
the deployment and daemonset present and their container lists nonempty,
the call succeeds and the resulting state is the three-field deployment
patch, the two-field daemonset patch, the reconciled config maps, and the
ensured registry secret. -/
theorem configureVeleroImages_ok_shape
    (isKurl : Bool) (ns : String)
    (f : String → Except String (String × List String)) (st : VeleroClusterState)
    (v a r : String) (secrets : List String) (d : Deployment) (ds : DaemonSet)
    (hnk : ¬(isKurl = true ∧ ns = "default"))
    (hrw : rewriteVeleroImages isKurl ns f = .ok (v, a, r, secrets))
    (hd : st.veleroDeployment = some d)
    (hdi : d.spec.initContainers ≠ []) (hdc : d.spec.containers ≠ [])
    (hds : st.resticDaemonSet = some ds) (hdsc : ds.spec.containers ≠ []) :
    configureVeleroImages isKurl ns f st = .ok
      { veleroDeployment := some (patchVeleroDeployment d secrets a v),
        resticDaemonSet := some (patchResticDaemonSet ds secrets v),
        configMaps := reconcileResticConfigMap st.configMaps r,
        registrySecretEnsured := true } := by
  unfold configureVeleroImages
  rw [if_neg hnk, hrw]
  simp [hd, hds, hdi, hdc, hdsc]

/-- C10: after the image-configuration operation succeeds on the rewriting
path, if the restore-helper image was rewritten away from its fixed
default then the config map named `"restic-restore-action-config"` exists
in the engine namespace with its `"image"` data equal to the rewritten
reference (created if absent, updated if present); if the restore-helper
image equals the default, no such config map remains (deleting an absent
one is success). -/
theorem restic_restore_helper_configmap
    (isKurl : Bool) (ns : String)
    (f : String → Except String (String × List String)) (st : VeleroClusterState)
    (v a r : String) (secrets : List String) (d : Deployment) (ds : DaemonSet)
    (hnk : ¬(isKurl = true ∧ ns = "default"))
    (hrw : rewriteVeleroImages isKurl ns f = .ok (v, a, r, secrets))
    (hd : st.veleroDeployment = some d)
    (hdi : d.spec.initContainers ≠ []) (hdc : d.spec.containers ≠ [])
    (hds : st.resticDaemonSet = some ds) (hdsc : ds.spec.containers ≠ []) :
    ∃ st', configureVeleroImages isKurl ns f st = .ok st' ∧
      (r ≠ defaultVeleroResticRestoreHelperImage →
        ∃ cm, st'.configMaps.find? (fun x => x.name == resticConfigMapName) = some cm ∧
          cm.name = resticConfigMapName ∧ getMapValue cm.data "image" = some r) ∧
      (r = defaultVeleroResticRestoreHelperImage →
        st'.configMaps.find? (fun x => x.name == resticConfigMapName) = none) := by
  refine ⟨_, configureVeleroImages_ok_shape isKurl ns f st v a r secrets d ds
    hnk hrw hd hdi hdc hds hdsc, ?_, ?_⟩
  · intro hne
    exact reconcile_configmap_rewritten st.configMaps r hne
  · intro heq
    subst heq
    exact reconcile_configmap_default st.configMaps

/-- Witness for C10 at a concrete cluster and registry rewrite. -/
theorem restic_restore_helper_configmap_witness :
    (¬((false : Bool) = true ∧ ("velero" : String) = "default")) ∧
    rewriteVeleroImages false "velero"
        (fun img => .ok ("registry.example.com/" ++ img, ["regsecret"]))
      = .ok ("registry.example.com/velero/velero:v1.5.1",
             "registry.example.com/velero/velero-plugin-for-aws:v1.1.0",
             "registry.example.com/velero/velero-restic-restore-helper:v1.5.1",
             ["regsecret"]) ∧
    (∃ st', configureVeleroImages false "velero"
          (fun img => .ok ("registry.example.com/" ++ img, ["regsecret"]))
          ⟨some ⟨"velero", [("component", "velero")],
             ⟨[], [⟨"velero-plugin-for-aws", "velero/velero-plugin-for-aws:v1.1.0"⟩],
              [⟨"velero", "velero/velero:v1.5.1"⟩], "velero", []⟩, 1, 1⟩,
           some ⟨"restic", [("component", "velero")],
             ⟨[], [], [⟨"restic", "velero/velero:v1.5.1"⟩], "velero", []⟩, 1, 0⟩,
           [], false⟩ = .ok st' ∧
      (("registry.example.com/velero/velero-restic-restore-helper:v1.5.1" : String)
          ≠ defaultVeleroResticRestoreHelperImage →
        ∃ cm, st'.configMaps.find? (fun x => x.name == resticConfigMapName) = some cm ∧
          cm.name = resticConfigMapName ∧
          getMapValue cm.data "image"
            = some "registry.example.com/velero/velero-restic-restore-helper:v1.5.1") ∧
      (("registry.example.com/velero/velero-restic-restore-helper:v1.5.1" : String)
          = defaultVeleroResticRestoreHelperImage →
        st'.configMaps.find? (fun x => x.name == resticConfigMapName) = none)) :=
  ⟨by decide, rfl,
   restic_restore_helper_configmap false "velero"
     (fun img => .ok ("registry.example.com/" ++ img, ["regsecret"]))
     ⟨some ⟨"velero", [("component", "velero")],
        ⟨[], [⟨"velero-plugin-for-aws", "velero/velero-plugin-for-aws:v1.1.0"⟩],
         [⟨"velero", "velero/velero:v1.5.1"⟩], "velero", []⟩, 1, 1⟩,
      some ⟨"restic", [("component", "velero")],
        ⟨[], [], [⟨"restic", "velero/velero:v1.5.1"⟩], "velero", []⟩, 1, 0⟩,
      [], false⟩
     "registry.example.com/velero/velero:v1.5.1"
     "registry.example.com/velero/velero-plugin-for-aws:v1.1.0"
     "registry.example.com/velero/velero-restic-restore-helper:v1.5.1"
     ["regsecret"]
     ⟨"velero", [("component", "velero")],
       ⟨[], [⟨"velero-plugin-for-aws", "velero/velero-plugin-for-aws:v1.1.0"⟩],
        [⟨"velero", "velero/velero:v1.5.1"⟩], "velero", []⟩, 1, 1⟩
     ⟨"restic", [("component", "velero")],
       ⟨[], [], [⟨"restic", "velero/velero:v1.5.1"⟩], "velero", []⟩, 1, 0⟩
     (by decide) rfl rfl (by decide) (by decide) rfl (by decide)⟩

end KotsSnapshot
